import Mathlib

/-!
Shallow embedding of the shopping-list core of the Foodgram backend
(`backend/api/views.py`, `backend/api/utils/utils.py`,
`backend/recipes/models.py`, `backend/api/serializers.py`) and proofs
about the behaviour of these operations.
-/

/-- Row of the `Ingredient` table (`recipes/models.py`): a name and a
measurement unit, with a surrogate primary key. -/
structure Ingredient where
  id : Nat
  name : String
  measurement_unit : String
deriving DecidableEq

/-- Row of the `IngredientInRecipe` join table (`recipes/models.py`): a
recipe references an ingredient together with an amount. -/
structure IngredientInRecipe where
  recipeId : Nat
  ingredientId : Nat
  amount : Nat
deriving DecidableEq

/-- Row of the `ShoppingCart` table (`recipes/models.py`): a
(user, recipe) pair. -/
structure ShoppingCart where
  userId : Nat
  recipeId : Nat
deriving DecidableEq

/-- Relational state used by the shopping-list endpoints. -/
structure Db where
  ingredients : List Ingredient
  recipeIngredients : List IngredientInRecipe
  carts : List ShoppingCart
deriving DecidableEq

/-- One row of the joined queryset of `DownloadShoppingCartView`:
an ingredient name (`F("ingredient__name")`), its measurement unit
(`F("ingredient__measurement_unit")`) and the row's amount. -/
structure CartItem where
  name : String
  unit : String
  amount : Nat
deriving DecidableEq

/-- Grouping key used by `values(name=..., unit=...)`. -/
def CartItem.key (r : CartItem) : String × String := (r.name, r.unit)

/-- One aggregated output row of the shopping-list query:
`{name, unit, total}`. -/
structure AggRow where
  name : String
  unit : String
  total : Nat
deriving DecidableEq

/-- Grouping key of an aggregated row. -/
def AggRow.key (a : AggRow) : String × String := (a.name, a.unit)

/-- Fold step of the SQL `GROUP BY name, unit` with `Sum("amount")`: merge
one joined row into the running groups, adding its amount to the group with
the same (name, unit) key when one exists and opening a new group
otherwise. -/
def addRow : List AggRow → CartItem → List AggRow
  | [], r => [⟨r.name, r.unit, r.amount⟩]
  | a :: acc, r =>
    if a.key = r.key then ⟨a.name, a.unit, a.total + r.amount⟩ :: acc
    else a :: addRow acc r

/-- Semantics of
`qs.values(name=..., unit=...).annotate(total=Sum("amount"))`: group the
joined rows by (name, unit) and sum the amounts of each group. -/
def aggregate (items : List CartItem) : List AggRow := items.foldl addRow []

/-- Queryset
`IngredientInRecipe.objects.filter(recipe__in_shopping_carts__user=user)`:
the ingredient rows of the recipes in the user's cart. -/
def cartQs (db : Db) (user : Nat) : List IngredientInRecipe :=
  db.recipeIngredients.filter
    (fun r => db.carts.any (fun c => c.userId == user && c.recipeId == r.recipeId))

/-- Join of the cart queryset with the `Ingredient` table along the
`ingredient` foreign key, yielding (name, unit, amount) rows. -/
def joinCart (db : Db) (user : Nat) : List CartItem :=
  (cartQs db user).filterMap (fun r =>
    (db.ingredients.find? (fun i => i.id == r.ingredientId)).map
      (fun i => ⟨i.name, i.measurement_unit, r.amount⟩))

/-- Aggregated shopping list computed by `DownloadShoppingCartView` for one
user. -/
def shoppingList (db : Db) (user : Nat) : List AggRow :=
  aggregate (joinCart db user)

/-- Total amount over the rows of `items` whose (name, unit) key is `p`. -/
def sumFor (items : List CartItem) (p : String × String) : Nat :=
  ((items.filter (fun r => r.key == p)).map CartItem.amount).sum

/-- Total recorded in the group of key `p`, zero when no such group exists. -/
def findTotal (acc : List AggRow) (p : String × String) : Nat :=
  ((acc.find? (fun a => a.key == p)).map AggRow.total).getD 0

theorem key_addRow_updated (a : AggRow) (t : Nat) :
    AggRow.key ⟨a.name, a.unit, t⟩ = a.key := rfl

theorem mem_key_addRow (acc : List AggRow) (r : CartItem) (p : String × String) :
    p ∈ (addRow acc r).map AggRow.key ↔ p ∈ acc.map AggRow.key ∨ p = r.key := by
  induction acc with
  | nil =>
    simp only [addRow, List.map_cons, List.map_nil, List.mem_singleton,
      List.not_mem_nil, false_or]
    exact ⟨fun h => h, fun h => h⟩
  | cons a acc ih =>
    by_cases h : a.key = r.key
    · simp only [addRow, if_pos h, List.map_cons, List.mem_cons,
        key_addRow_updated]
      constructor
      · rintro (hp | hp)
        · exact Or.inl (Or.inl hp)
        · exact Or.inl (Or.inr hp)
      · rintro ((hp | hp) | hp)
        · exact Or.inl hp
        · exact Or.inr hp
        · exact Or.inl (h.symm ▸ hp)
    · simp only [addRow, if_neg h, List.map_cons, List.mem_cons, ih]
      tauto

theorem nodup_key_addRow (acc : List AggRow) (r : CartItem)
    (h : (acc.map AggRow.key).Nodup) :
    ((addRow acc r).map AggRow.key).Nodup := by
  induction acc with
  | nil =>
    simp [addRow]
  | cons a acc ih =>
    rw [List.map_cons, List.nodup_cons] at h
    by_cases hk : a.key = r.key
    · simp only [addRow, if_pos hk, List.map_cons, List.nodup_cons,
        key_addRow_updated]
      exact ⟨h.1, h.2⟩
    · simp only [addRow, if_neg hk, List.map_cons, List.nodup_cons]
      refine ⟨fun hc => ?_, ih h.2⟩
      rcases (mem_key_addRow acc r a.key).mp hc with hm | hm
      · exact h.1 hm
      · exact hk hm

theorem findTotal_addRow (acc : List AggRow) (r : CartItem) (p : String × String) :
    findTotal (addRow acc r) p
      = findTotal acc p + (if p = r.key then r.amount else 0) := by
  induction acc with
  | nil =>
    by_cases hp : p = r.key
    · subst hp
      have hb : (AggRow.key ⟨r.name, r.unit, r.amount⟩ == CartItem.key r) = true :=
        beq_iff_eq.mpr rfl
      simp [addRow, findTotal, List.find?, hb]
    · have hb : (AggRow.key ⟨r.name, r.unit, r.amount⟩ == p) = false :=
        beq_false_of_ne (fun hc => hp hc.symm)
      simp [addRow, findTotal, List.find?, hb, hp]
  | cons a acc ih =>
    by_cases hk : a.key = r.key
    · by_cases hp : a.key = p
      · have hbeq : (AggRow.key ⟨a.name, a.unit, a.total + r.amount⟩ == p) = true := by
          simpa [key_addRow_updated, beq_iff_eq] using hp
        have hbeq' : (a.key == p) = true := by simpa [beq_iff_eq] using hp
        simp only [addRow, if_pos hk, findTotal, List.find?, hbeq, hbeq',
          Option.map_some, Option.getD_some]
        have hpr : p = r.key := by rw [← hp, hk]
        simp [hpr]
      · have hbeq : (AggRow.key ⟨a.name, a.unit, a.total + r.amount⟩ == p) = false := by
          simpa [key_addRow_updated, beq_iff_eq] using hp
        have hbeq' : (a.key == p) = false := by simpa [beq_iff_eq] using hp
        have hpr : ¬ p = r.key := fun hc => hp (by rw [hk, hc])
        simp only [addRow, if_pos hk, findTotal, List.find?, hbeq, hbeq']
        simp [findTotal, hpr]
    · by_cases hp : a.key = p
      · have hbeq' : (a.key == p) = true := by simpa [beq_iff_eq] using hp
        have hpr : ¬ p = r.key := fun hc => hk (by rw [hp, hc])
        simp only [addRow, if_neg hk, findTotal, List.find?, hbeq',
          Option.map_some, Option.getD_some]
        simp [hpr]
      · have hbeq' : (a.key == p) = false := by simpa [beq_iff_eq] using hp
        simp only [addRow, if_neg hk, findTotal, List.find?, hbeq']
        exact ih

theorem sumFor_cons (r : CartItem) (rest : List CartItem) (p : String × String) :
    sumFor (r :: rest) p
      = (if p = r.key then r.amount else 0) + sumFor rest p := by
  by_cases hp : p = r.key
  · have : (r.key == p) = true := by simpa [beq_iff_eq] using hp.symm
    simp [sumFor, this, hp]
  · have : (r.key == p) = false := by
      simpa [beq_iff_eq] using fun hc => hp hc.symm
    simp [sumFor, this, hp]

theorem findTotal_foldl (items : List CartItem) :
    ∀ (acc : List AggRow) (p : String × String),
      findTotal (items.foldl addRow acc) p = findTotal acc p + sumFor items p := by
  induction items with
  | nil =>
    intro acc p
    simp [sumFor, findTotal]
  | cons r rest ih =>
    intro acc p
    rw [List.foldl_cons, ih (addRow acc r) p, findTotal_addRow, sumFor_cons]
    omega

theorem nodup_key_foldl (items : List CartItem) :
    ∀ acc : List AggRow, (acc.map AggRow.key).Nodup →
      ((items.foldl addRow acc).map AggRow.key).Nodup := by
  induction items with
  | nil => intro acc h; simpa using h
  | cons r rest ih =>
    intro acc h
    rw [List.foldl_cons]
    exact ih (addRow acc r) (nodup_key_addRow acc r h)

theorem mem_key_foldl (items : List CartItem) :
    ∀ (acc : List AggRow) (p : String × String),
      p ∈ (items.foldl addRow acc).map AggRow.key
        ↔ p ∈ acc.map AggRow.key ∨ ∃ r ∈ items, r.key = p := by
  induction items with
  | nil =>
    intro acc p
    simp
  | cons r rest ih =>
    intro acc p
    rw [List.foldl_cons, ih (addRow acc r) p, mem_key_addRow]
    constructor
    · rintro ((hm | hm) | hm)
      · exact Or.inl hm
      · exact Or.inr ⟨r, List.mem_cons_self r rest, hm.symm⟩
      · rcases hm with ⟨x, hx, hk⟩
        exact Or.inr ⟨x, List.mem_cons_of_mem r hx, hk⟩
    · rintro (hm | hm)
      · exact Or.inl (Or.inl hm)
      · rcases hm with ⟨x, hx, hk⟩
        rcases List.mem_cons.mp hx with hx | hx
        · exact Or.inl (Or.inr (hx ▸ hk).symm)
        · exact Or.inr ⟨x, hx, hk⟩

theorem findTotal_mem (l : List AggRow) (h : (l.map AggRow.key).Nodup) :
    ∀ a ∈ l, findTotal l a.key = a.total := by
  induction l with
  | nil => intro a ha; cases ha
  | cons b t ih =>
    intro a ha
    rw [List.map_cons, List.nodup_cons] at h
    rcases List.mem_cons.mp ha with hab | hat
    · have hb : (b.key == a.key) = true := beq_iff_eq.mpr (by rw [hab])
      simp [findTotal, List.find?, hb, hab]
    · have hmem : a.key ∈ t.map AggRow.key := List.mem_map_of_mem AggRow.key hat
      have hne : (b.key == a.key) = false :=
        beq_false_of_ne (fun hc => h.1 (hc ▸ hmem))
      simp only [findTotal, List.find?, hne]
      exact ih h.2 a hat

theorem aggregate_keys_nodup (items : List CartItem) :
    ((aggregate items).map AggRow.key).Nodup :=
  nodup_key_foldl items [] (by simp)

theorem aggregate_mem_key (items : List CartItem) (p : String × String) :
    p ∈ (aggregate items).map AggRow.key ↔ ∃ r ∈ items, r.key = p := by
  rw [aggregate, mem_key_foldl]
  simp

theorem aggregate_total (items : List CartItem) :
    ∀ a ∈ aggregate items, a.total = sumFor items a.key := by
  intro a ha
  have h1 : findTotal (aggregate items) a.key = a.total :=
    findTotal_mem (aggregate items) (aggregate_keys_nodup items) a ha
  have h2 : findTotal (aggregate items) a.key = findTotal [] a.key + sumFor items a.key :=
    findTotal_foldl items [] a.key
  have h0 : findTotal ([] : List AggRow) a.key = 0 := rfl
  omega

/-- C1: for every user, the shopping-list aggregation has pairwise distinct
(name, unit) keys, a key occurs in the output exactly when some joined cart
row carries it, and each output total is the sum of the amounts of all the
joined cart rows with that key. -/
theorem shoppingList_aggregation_correct (db : Db) (user : Nat) :
    ((shoppingList db user).map AggRow.key).Nodup ∧
    (∀ p : String × String,
        p ∈ (shoppingList db user).map AggRow.key
          ↔ ∃ r ∈ joinCart db user, r.key = p) ∧
    (∀ a ∈ shoppingList db user, a.total = sumFor (joinCart db user) a.key) :=
  ⟨aggregate_keys_nodup (joinCart db user),
   fun p => aggregate_mem_key (joinCart db user) p,
   aggregate_total (joinCart db user)⟩

/-- Concrete database of the spec's scenario: recipe 1 holds flour 100 g and
egg 2 шт, recipe 2 holds flour 50 g and milk 200 ml, and user 1 has both
recipes in the cart. -/
def exampleDb : Db where
  ingredients :=
    [⟨1, "flour", "g"⟩, ⟨2, "egg", "шт"⟩, ⟨3, "milk", "ml"⟩]
  recipeIngredients :=
    [⟨1, 1, 100⟩, ⟨1, 2, 2⟩, ⟨2, 1, 50⟩, ⟨2, 3, 200⟩]
  carts := [⟨1, 1⟩, ⟨1, 2⟩]

/-- Witness for C1 at the spec's concrete scenario. -/
theorem shoppingList_aggregation_correct_witness :
    ((shoppingList exampleDb 1).map AggRow.key).Nodup ∧
    (∀ p : String × String,
        p ∈ (shoppingList exampleDb 1).map AggRow.key
          ↔ ∃ r ∈ joinCart exampleDb 1, r.key = p) ∧
    (∀ a ∈ shoppingList exampleDb 1, a.total = sumFor (joinCart exampleDb 1) a.key) :=
  shoppingList_aggregation_correct exampleDb 1

/-- Line rendered for one aggregated row by the text formatter:
the shape `name (unit) — total`. -/
def shoppingLine (item : AggRow) : String :=
  item.name ++ " (" ++ item.unit ++ ") — " ++ toString item.total

/-- Text rendering (`api/utils/utils.py::generate_text_content` and
`DownloadShoppingCartView._generate_text_content`): one line per aggregated
row, joined with a newline. -/
def generate_text_content (data : List AggRow) : String :=
  String.intercalate "\n" (data.map shoppingLine)

/-- Error raised by CPython when `csv.writer` is handed an object without a
`write` method. -/
def csvWriterTypeError : String :=
  "TypeError: argument 1 must have a \"write\" method"

/-- Model of constructing a Python `csv.writer` over a receiver object:
CPython requires the receiver to provide a `write` method and raises
`TypeError` at construction time otherwise. -/
def csvWriter (receiverHasWriteMethod : Bool) : Except String Unit :=
  if receiverHasWriteMethod then Except.ok () else Except.error csvWriterTypeError

/-- CSV rendering (`api/utils/utils.py::generate_csv_content` and
`DownloadShoppingCartView._generate_csv_content`). The code sets
`output = []` (a plain Python list, which has no `write` method) and calls
`csv.writer(output)`, which raises `TypeError` before any row is written;
the `writerow` calls never execute, `output` is never mutated, and the
final newline-join over `output` is unreachable. -/
def generate_csv_content (data : List AggRow) : Except String String := do
  let output : List (List String) := []
  let _writer ← csvWriter false
  pure (String.intercalate "\n" (output.map (String.intercalate ",")))

/-- Abstract flowable of the generated PDF document (a reportlab
`Paragraph` or `Table`); the embedding keeps the document structure rather
than the rendered byte stream. -/
inductive PdfElement where
  | paragraph (text : String)
  | table (rows : List (List String))
deriving DecidableEq

/-- PDF rendering (`DownloadShoppingCartView._generate_pdf` and
`api/utils/utils.py::generate_pdf`): a title, a spacer paragraph, then for
a non-empty list a table of a header row plus one row per aggregated item,
and for an empty list the paragraph "Ваш список покупок пуст.". -/
def generate_pdf (data : List AggRow) : List PdfElement :=
  [PdfElement.paragraph "Список покупок",
   PdfElement.paragraph "<br/><br/>"] ++
  (if data.isEmpty then
    [PdfElement.paragraph "Ваш список покупок пуст."]
  else
    [PdfElement.table
      (["Ингредиент", "Единица измерения", "Количество"]
        :: data.map (fun item => [item.name, item.unit, toString item.total]))])

/-- Payload of an HTTP response: text (also carrying CSV), a PDF document,
or the JSON object of the status and error responses. -/
inductive ResponseBody where
  | text (s : String)
  | pdf (doc : List PdfElement)
  | json (payload : String)
deriving DecidableEq

/-- HTTP response: status code, Content-Type, optional Content-Disposition
header, and body. -/
structure HttpResponse where
  status : Nat
  contentType : String
  contentDisposition : Option String
  body : ResponseBody
deriving DecidableEq

/-- Helper `DownloadShoppingCartView._text_response`: a 200 text/plain
response with an attachment disposition for `filename`. -/
def DownloadShoppingCartView.text_response (content : String) (filename : String) :
    HttpResponse :=
  { status := 200
    contentType := "text/plain; charset=utf-8"
    contentDisposition := some ("attachment; filename=\"" ++ filename ++ "\"")
    body := ResponseBody.text content }

/-- Helper `DownloadShoppingCartView._csv_response`: renders the CSV content
(which can raise) and wraps it in a 200 text/csv attachment response. -/
def DownloadShoppingCartView.csv_response (data : List AggRow) (filename : String) :
    Except String HttpResponse := do
  let content ← generate_csv_content data
  pure { status := 200
         contentType := "text/csv; charset=utf-8"
         contentDisposition := some ("attachment; filename=\"" ++ filename ++ "\"")
         body := ResponseBody.text content }

/-- Helper `DownloadShoppingCartView._pdf_response`: a 200 application/pdf
attachment response around the built document. -/
def DownloadShoppingCartView.pdf_response (doc : List PdfElement) (filename : String) :
    HttpResponse :=
  { status := 200
    contentType := "application/pdf"
    contentDisposition := some ("attachment; filename=\"" ++ filename ++ "\"")
    body := ResponseBody.pdf doc }

/-- Body of `DownloadShoppingCartView.get` inside its `try` block, over the
joined cart rows `items` of the requesting user and the already-lowercased
`format` query parameter (`request.GET.get('format', 'txt').lower()`); an
`Except.error` models a raised exception. -/
def DownloadShoppingCartView.getE (items : List CartItem) (format : String) :
    Except String HttpResponse :=
  if items.isEmpty then
    let content := "Ваш список покупок пуст."
    let filename := "shopping_list.txt"
    if format = "pdf" then
      Except.ok (DownloadShoppingCartView.pdf_response (generate_pdf []) filename)
    else if format = "csv" then
      DownloadShoppingCartView.csv_response [] filename
    else
      Except.ok (DownloadShoppingCartView.text_response content filename)
  else
    let data := aggregate items
    let filename := "shopping_list"
    if format = "pdf" then
      Except.ok (DownloadShoppingCartView.pdf_response (generate_pdf data)
        (filename ++ ".pdf"))
    else if format = "csv" then
      DownloadShoppingCartView.csv_response data (filename ++ ".csv")
    else
      Except.ok (DownloadShoppingCartView.text_response
        (generate_text_content data) (filename ++ ".txt"))

/-- Generic 500 error response produced by the `except Exception` handlers. -/
def serverError (msg : String) : HttpResponse :=
  { status := 500
    contentType := "application/json"
    contentDisposition := none
    body := ResponseBody.json msg }

/-- Full `DownloadShoppingCartView.get`: the `try` body together with the
`except Exception` fallback returning a generic 500 response. -/
def DownloadShoppingCartView.get (items : List CartItem) (format : String) :
    HttpResponse :=
  match DownloadShoppingCartView.getE items format with
  | Except.ok r => r
  | Except.error _ => serverError "Произошла ошибка при формировании списка покупок."

/-- Composed email message (`django.core.mail.EmailMessage`): subject, body,
recipient, and attachments as (filename, payload, MIME type) triples. -/
structure EmailMsg where
  subject : String
  body : String
  toAddress : String
  attachments : List (String × ResponseBody × String)
deriving DecidableEq

/-- Message composition of `DownloadShoppingCartView.post` inside its `try`
block: choose body text and attachments from the joined cart rows and the
requested format, then build the `EmailMessage`; an `Except.error` models a
raised exception. -/
def DownloadShoppingCartView.composeEmail (items : List CartItem) (format : String)
    (toAddress : String) : Except String EmailMsg := do
  let pair ←
    if items.isEmpty then
      pure ("Ваш список покупок пуст.", ([] : List (String × ResponseBody × String)))
    else
      let data := aggregate items
      if format = "pdf" then
        pure ("Ваш список покупок во вложении.",
          [("shopping_list.pdf", ResponseBody.pdf (generate_pdf data), "application/pdf")])
      else if format = "csv" then do
        let csv_content ← generate_csv_content data
        pure ("Ваш список покупок во вложении.",
          [("shopping_list.csv", ResponseBody.text csv_content, "text/csv")])
      else
        let content := generate_text_content data
        pure (content, [("shopping_list.txt", ResponseBody.text content, "text/plain")])
  pure { subject := "Ваш список покупок"
         body := pair.1
         toAddress := toAddress
         attachments := pair.2 }

/-- Full `DownloadShoppingCartView.post`: compose the message and send it.
Argument `emailParam` is the optional `email` field of the request body
(defaulting to the requesting user's address), and `sendOk` tells whether
the configured mail transport accepts the message (`email_msg.send()`
raises otherwise). Any exception is caught and turned into a generic 500
response. -/
def DownloadShoppingCartView.post (items : List CartItem) (format : String)
    (emailParam : Option String) (userEmail : String) (sendOk : Bool) : HttpResponse :=
  match DownloadShoppingCartView.composeEmail items format (emailParam.getD userEmail) with
  | Except.error _ => serverError "Ошибка при отправке списка покупок"
  | Except.ok _ =>
    if sendOk then
      { status := 200
        contentType := "application/json"
        contentDisposition := none
        body := ResponseBody.json "Список покупок отправлен на вашу почту" }
    else
      serverError "Ошибка при отправке списка покупок"

/-- Rendering described by the spec's wording for the text format: one line
of the shape `name (unit) — total` per ingredient, consecutive lines
separated by single newlines, with no leading or trailing newline and no
extra lines. -/
def specTextRender : List AggRow → String
  | [] => ""
  | [a] => shoppingLine a
  | a :: b :: rest => shoppingLine a ++ "\n" ++ specTextRender (b :: rest)

theorem intercalate_go_append (s : String) (l : List String) :
    ∀ a b : String,
      String.intercalate.go (a ++ b) s l = a ++ String.intercalate.go b s l := by
  induction l with
  | nil =>
    intro a b
    rfl
  | cons x xs ih =>
    intro a b
    simp only [String.intercalate.go]
    have h : a ++ b ++ s ++ x = a ++ (b ++ s ++ x) := by
      rw [String.append_assoc a b s, String.append_assoc a (b ++ s) x]
    rw [h]
    exact ih a (b ++ s ++ x)

theorem intercalate_cons_cons (s a b : String) (l : List String) :
    String.intercalate s (a :: b :: l) = a ++ s ++ String.intercalate s (b :: l) := by
  show String.intercalate.go a s (b :: l) = a ++ s ++ String.intercalate.go b s l
  simp only [String.intercalate.go]
  exact intercalate_go_append s l (a ++ s) b

/-- C7: the text rendering is exactly the spec's newline-join of one
`name (unit) — total` line per aggregated ingredient, with no trailing
newline and no extra lines. -/
theorem generate_text_content_matches_spec (data : List AggRow) :
    generate_text_content data = specTextRender data := by
  induction data with
  | nil => rfl
  | cons a rest ih =>
    cases rest with
    | nil => rfl
    | cons b t =>
      show String.intercalate "\n" (shoppingLine a :: shoppingLine b :: t.map shoppingLine)
        = shoppingLine a ++ "\n" ++ specTextRender (b :: t)
      rw [intercalate_cons_cons, ← ih]
      rfl

theorem generate_csv_content_eq (data : List AggRow) :
    generate_csv_content data = Except.error csvWriterTypeError := rfl

/-- C5 (code bug): the CSV renderer returns no content for any input — it
raises `TypeError`, because `csv.writer` is applied to a plain Python list.
In particular the empty input yields this error instead of a header-only
CSV. -/
theorem generate_csv_content_never_renders (data : List AggRow) :
    generate_csv_content data = Except.error csvWriterTypeError
      ∧ generate_csv_content [] = Except.error csvWriterTypeError :=
  ⟨rfl, rfl⟩

/-- C4 (code bug): with an empty cart the text and PDF downloads are
well-formed 200 artifacts whose content signals emptiness, but the CSV
download is the generic 500 error response because the CSV renderer
raises. -/
theorem empty_cart_export_formats :
    (DownloadShoppingCartView.get [] "txt").status = 200 ∧
    (DownloadShoppingCartView.get [] "txt").body
      = ResponseBody.text "Ваш список покупок пуст." ∧
    (DownloadShoppingCartView.get [] "pdf").status = 200 ∧
    (DownloadShoppingCartView.get [] "pdf").body
      = ResponseBody.pdf (generate_pdf []) ∧
    PdfElement.paragraph "Ваш список покупок пуст." ∈ generate_pdf [] ∧
    (DownloadShoppingCartView.get [] "csv").status = 500 ∧
    (DownloadShoppingCartView.get [] "csv").body
      = ResponseBody.json "Произошла ошибка при формировании списка покупок." := by
  refine ⟨rfl, rfl, rfl, rfl, ?_, rfl, rfl⟩
  simp [generate_pdf]

/-- Concrete joined cart row used by the concrete instances below:
flour, 100 g. -/
def flourItem : CartItem := ⟨"flour", "g", 100⟩

/-- C6 (code bug): Content-Disposition filenames of the download endpoint.
The text download always uses shopping_list.txt and the non-empty PDF
download uses shopping_list.pdf, but the empty-cart PDF download is served
as shopping_list.txt, and every CSV download is the 500 error response
without any Content-Disposition header. -/
theorem download_content_disposition :
    (DownloadShoppingCartView.get [flourItem] "txt").contentDisposition
      = some "attachment; filename=\"shopping_list.txt\"" ∧
    (DownloadShoppingCartView.get [flourItem] "pdf").contentDisposition
      = some "attachment; filename=\"shopping_list.pdf\"" ∧
    (DownloadShoppingCartView.get [] "txt").contentDisposition
      = some "attachment; filename=\"shopping_list.txt\"" ∧
    (DownloadShoppingCartView.get [] "pdf").contentDisposition
      = some "attachment; filename=\"shopping_list.txt\"" ∧
    (DownloadShoppingCartView.get [] "csv").contentDisposition = none ∧
    (DownloadShoppingCartView.get [flourItem] "csv").contentDisposition = none :=
  ⟨rfl, rfl, rfl, rfl, rfl, rfl⟩

/-- C8: every exception in the download/email endpoints is caught at the
boundary: whenever the GET body raises, GET returns the generic 500 error
response; whenever message composition raises, POST returns its generic 500
error response; and with an unreachable mail transport POST returns a 500
rather than a silent success. -/
theorem download_exceptions_are_caught (items : List CartItem) (format : String)
    (emailParam : Option String) (userEmail : String) :
    (∀ e, DownloadShoppingCartView.getE items format = Except.error e →
      DownloadShoppingCartView.get items format
        = serverError "Произошла ошибка при формировании списка покупок.") ∧
    (∀ e, DownloadShoppingCartView.composeEmail items format (emailParam.getD userEmail)
        = Except.error e →
      ∀ sendOk, DownloadShoppingCartView.post items format emailParam userEmail sendOk
        = serverError "Ошибка при отправке списка покупок") ∧
    (DownloadShoppingCartView.post items format emailParam userEmail false).status = 500 := by
  refine ⟨?_, ?_, ?_⟩
  · intro e he
    unfold DownloadShoppingCartView.get
    rw [he]
  · intro e he sendOk
    unfold DownloadShoppingCartView.post
    rw [he]
  · unfold DownloadShoppingCartView.post
    cases h : DownloadShoppingCartView.composeEmail items format (emailParam.getD userEmail) with
    | error e => rfl
    | ok m => rfl

/-- Witness for C8: with format csv the GET body raises and the endpoint
returns the generic 500 response, and POST with a failing mail transport
returns a 500. -/
theorem download_exceptions_are_caught_witness :
    DownloadShoppingCartView.get [] "csv"
      = serverError "Произошла ошибка при формировании списка покупок." ∧
    (DownloadShoppingCartView.post [] "csv" none "user@example.com" false).status = 500 :=
  ⟨(download_exceptions_are_caught [] "csv" none "user@example.com").1 csvWriterTypeError rfl,
   (download_exceptions_are_caught [] "csv" none "user@example.com").2.2⟩

/-- C3 counterexample: for a non-empty cart, the txt-format email carries
the rendered list itself as its body, which differs from the status string
used by the pdf format, so the body is not the same status string
regardless of the chosen format. -/
theorem email_body_depends_on_format :
    (DownloadShoppingCartView.composeEmail [flourItem] "txt" "user@example.com").toOption.map
        EmailMsg.body = some "flour (g) — 100" ∧
    (DownloadShoppingCartView.composeEmail [flourItem] "pdf" "user@example.com").toOption.map
        EmailMsg.body = some "Ваш список покупок во вложении." ∧
    ("flour (g) — 100" : String) ≠ "Ваш список покупок во вложении." := by
  refine ⟨rfl, rfl, ?_⟩
  decide

/-- C3 amended: with an empty cart every format yields the empty-list body
with no attachment; with a non-empty cart the pdf format yields the status
body with the list only as an attachment, the csv format raises while
composing (so the endpoint reports an error and no message is sent), and
every other format (txt included) uses the rendered text list itself as the
body while also attaching it. -/
theorem email_composition_by_format (items : List CartItem) (toAddress : String)
    (format : String) :
    (items = [] →
      DownloadShoppingCartView.composeEmail items format toAddress
        = Except.ok ⟨"Ваш список покупок", "Ваш список покупок пуст.", toAddress, []⟩) ∧
    (items ≠ [] →
      DownloadShoppingCartView.composeEmail items "pdf" toAddress
        = Except.ok ⟨"Ваш список покупок", "Ваш список покупок во вложении.", toAddress,
            [("shopping_list.pdf", ResponseBody.pdf (generate_pdf (aggregate items)),
              "application/pdf")]⟩) ∧
    (items ≠ [] →
      DownloadShoppingCartView.composeEmail items "csv" toAddress
        = Except.error csvWriterTypeError) ∧
    (items ≠ [] → format ≠ "pdf" → format ≠ "csv" →
      DownloadShoppingCartView.composeEmail items format toAddress
        = Except.ok ⟨"Ваш список покупок", generate_text_content (aggregate items), toAddress,
            [("shopping_list.txt",
              ResponseBody.text (generate_text_content (aggregate items)),
              "text/plain")]⟩) := by
  refine ⟨?_, ?_, ?_, ?_⟩
  · intro h
    subst h
    rfl
  · intro h
    have hne : items.isEmpty = false := by
      simpa [List.isEmpty_iff] using h
    simp [DownloadShoppingCartView.composeEmail, hne]
    rfl
  · intro h
    have hne : items.isEmpty = false := by
      simpa [List.isEmpty_iff] using h
    simp [DownloadShoppingCartView.composeEmail, hne, generate_csv_content_eq]
  · intro h hpdf hcsv
    have hne : items.isEmpty = false := by
      simpa [List.isEmpty_iff] using h
    simp [DownloadShoppingCartView.composeEmail, hne, hpdf, hcsv]
    rfl

/-- Witness for C3's amended statement at a concrete one-row cart. -/
theorem email_composition_by_format_witness :
    DownloadShoppingCartView.composeEmail [flourItem] "csv" "user@example.com"
      = Except.error csvWriterTypeError ∧
    DownloadShoppingCartView.composeEmail [flourItem] "txt" "user@example.com"
      = Except.ok ⟨"Ваш список покупок", generate_text_content (aggregate [flourItem]),
          "user@example.com",
          [("shopping_list.txt",
            ResponseBody.text (generate_text_content (aggregate [flourItem])),
            "text/plain")]⟩ :=
  ⟨(email_composition_by_format [flourItem] "user@example.com" "txt").2.2.1
      (List.cons_ne_nil flourItem []),
   (email_composition_by_format [flourItem] "user@example.com" "txt").2.2.2
      (List.cons_ne_nil flourItem []) (by decide) (by decide)⟩

/-- Alphabet used by `generate_short_code` (`recipes/models.py`):
`string.ascii_uppercase + string.digits`. -/
def shortCodeChars : List Char :=
  "ABCDEFGHIJKLMNOPQRSTUVWXYZ0123456789".toList

/-- Short-code generator `generate_short_code` of `recipes/models.py`:
`length` independent uniform choices from `shortCodeChars`, the random
stream made explicit as the choice function `pick`. The recipe id is not an
input: the generated code does not depend on it. -/
def generate_short_code (pick : Nat → Nat) (length : Nat) : String :=
  String.mk ((List.range length).map
    (fun i => shortCodeChars.getD (pick i % shortCodeChars.length) 'A'))

/-- Modelled from the spec: `api/utils/base62.py`, which `api/views.py`
imports for `decode_base62`, is not part of the source tree. The spec
describes the decode scheme as a base-62-style mapping from the code
alphabet to an integer id whose result on a malformed code is a
deterministic invalid-id value, so the model uses the standard base-62
digit alphabet, out-of-alphabet characters taking the deterministic
digit value 62 (`List.indexOf` past the end). -/
def base62Alphabet : List Char :=
  "0123456789abcdefghijklmnopqrstuvwxyzABCDEFGHIJKLMNOPQRSTUVWXYZ".toList

/-- Modelled from the spec: base-62 decoding of a short code to an integer
recipe id over `base62Alphabet`. The function is total, so decoding never
raises. -/
def decode_base62 (code : String) : Nat :=
  code.toList.foldl (fun acc c => acc * 62 + base62Alphabet.indexOf c) 0

/-- Outcome of the `/r/<short_code>/` view: a redirect to a recipe page or
a 404. -/
inductive RedirectResult where
  | redirect (recipeId : Nat)
  | notFound
deriving DecidableEq

/-- Redirect view `redirect_to_recipe` of `api/views.py`: decode the code
as base 62 and look the resulting id up in the `Recipe` table
(`get_object_or_404`), redirecting on a hit and returning 404 otherwise;
`recipeIds` stands for the ids present in the table. -/
def redirect_to_recipe (recipeIds : List Nat) (short_code : String) : RedirectResult :=
  let recipe_id := decode_base62 short_code
  if recipeIds.contains recipe_id then RedirectResult.redirect recipe_id
  else RedirectResult.notFound

/-- C2 (code bug): the stored short code is a uniform random string over
uppercase letters and digits that ignores the recipe id, and decoding it is
not a left inverse of generating it: the reachable random stream that picks
the first alphabet character seven times stores the code "AAAAAAA" for
recipe 1, that code decodes to a number different from 1, and the
`/r/<code>/` redirect answers 404 for it even though recipe 1 exists. -/
theorem short_code_decode_not_left_inverse :
    generate_short_code (fun _ => 0) 7 = "AAAAAAA" ∧
    decode_base62 "AAAAAAA" ≠ 1 ∧
    redirect_to_recipe [1] (generate_short_code (fun _ => 0) 7)
      = RedirectResult.notFound := by
  refine ⟨?_, ?_, ?_⟩ <;> decide

/-- Recipe row as used by `CustomUserWithRecipesSerializer.get_recipes`
(`api/serializers.py`): an id and a publication timestamp for the
`-pub_date` ordering. -/
structure Recipe where
  id : Nat
  pub_date : Nat
deriving DecidableEq

/-- Modelled from the spec: `core/constants.py` is not part of the source
tree, so `DEFAULT_RECIPES_LIMIT` and `MAX_RECIPES_LIMIT` enter as explicit
parameters `default_limit` and `max_limit`.

Limit selection of `CustomUserWithRecipesSerializer.get_recipes`: with the
`recipes_limit` request parameter absent the default limit stands; a
present but unparseable parameter (where `int` raises) is ignored by the
`except` clause, keeping the default; a parsed value below 1 falls back to
the default; a value above the maximum is clamped to the maximum; any other
value is used as requested. The parameter is `none` when absent,
`some none` when present but not parseable as an integer, and
`some (some n)` when it parses to `n`. -/
def recipesLimit (default_limit max_limit : Nat)
    (limit_param : Option (Option Int)) : Nat :=
  match limit_param with
  | none => default_limit
  | some none => default_limit
  | some (some requested_limit) =>
    if requested_limit < 1 then default_limit
    else if requested_limit > (max_limit : Int) then max_limit
    else requested_limit.toNat

/-- Recipe list returned per author by `get_recipes`: the author's recipes
ordered by descending `pub_date` and truncated to the selected limit
(`recipes[:limit]`). -/
def get_recipes (default_limit max_limit : Nat) (recipes : List Recipe)
    (limit_param : Option (Option Int)) : List Recipe :=
  (recipes.mergeSort (fun a b => decide (b.pub_date ≤ a.pub_date))).take
    (recipesLimit default_limit max_limit limit_param)

/-- C9: when the default limit does not exceed the maximum, the per-author
recipe list never exceeds `max_limit` entries; an absent or unparseable or
below-1 parameter selects the default limit, and a parameter above the
maximum is clamped to the maximum. -/
theorem get_recipes_length_clamped (default_limit max_limit : Nat)
    (hd : default_limit ≤ max_limit) (recipes : List Recipe)
    (limit_param : Option (Option Int)) :
    (get_recipes default_limit max_limit recipes limit_param).length ≤ max_limit ∧
    recipesLimit default_limit max_limit none = default_limit ∧
    recipesLimit default_limit max_limit (some none) = default_limit ∧
    (∀ n : Int, n < 1 →
      recipesLimit default_limit max_limit (some (some n)) = default_limit) ∧
    (∀ n : Int, (max_limit : Int) < n →
      recipesLimit default_limit max_limit (some (some n)) = max_limit) := by
  have hlim : recipesLimit default_limit max_limit limit_param ≤ max_limit := by
    rcases limit_param with _ | p
    · exact hd
    · rcases p with _ | n
      · exact hd
      · simp only [recipesLimit]
        split
        · exact hd
        · split
          · exact le_refl _
          · rename_i h1 h2
            omega
  refine ⟨?_, rfl, rfl, ?_, ?_⟩
  · exact le_trans (List.length_take_le _ _) hlim
  · intro n hn
    simp only [recipesLimit, if_pos hn]
  · intro n hn
    have h1 : ¬ n < 1 := by omega
    simp only [recipesLimit, if_neg h1, if_pos hn]

/-- Witness for C9 at concrete limits 3 and 100. -/
theorem get_recipes_length_clamped_witness :
    (get_recipes 3 100 [⟨1, 5⟩, ⟨2, 9⟩] (some (some 500))).length ≤ 100 ∧
    recipesLimit 3 100 (some (some 500)) = 100 ∧
    recipesLimit 3 100 (some none) = 3 ∧
    recipesLimit 3 100 (some (some (-2))) = 3 :=
  ⟨(get_recipes_length_clamped 3 100 (by decide) [⟨1, 5⟩, ⟨2, 9⟩] (some (some 500))).1,
   (get_recipes_length_clamped 3 100 (by decide) [] (some (some 500))).2.2.2.2 500 (by decide),
   (get_recipes_length_clamped 3 100 (by decide) [] (some none)).2.2.1,
   (get_recipes_length_clamped 3 100 (by decide) [] (some (some (-2)))).2.2.2.1 (-2) (by decide)⟩

/-- Ingredient item of a recipe write request
(`IngredientInRecipeWriteSerializer`): a validated ingredient id with an
amount. -/
structure IngredientAmount where
  id : Nat
  amount : Nat
deriving DecidableEq

/-- Bulk creation `create_ingredients` of `RecipeWriteSerializer`: one
`IngredientInRecipe` row per requested item, attached to `recipe`. -/
def create_ingredients (ingredients_data : List IngredientAmount) (recipe : Nat) :
    List IngredientInRecipe :=
  ingredients_data.map (fun item => ⟨recipe, item.id, item.amount⟩)

/-- Effect of `RecipeWriteSerializer.update` on the `IngredientInRecipe`
table: `instance.recipe_ingredients.all().delete()` removes every row of
the recipe being updated, then `create_ingredients` inserts the rows of the
request payload. -/
def RecipeWriteSerializer.update (table : List IngredientInRecipe)
    (instanceId : Nat) (ingredients_data : List IngredientAmount) :
    List IngredientInRecipe :=
  table.filter (fun row => row.recipeId != instanceId)
    ++ create_ingredients ingredients_data instanceId

/-- C10: after a recipe update, the rows attached to the updated recipe are
exactly the rows built from the request's ingredient list — no pre-update
row of that recipe survives — and the rows of all other recipes are left
untouched. -/
theorem update_replaces_recipe_ingredients (table : List IngredientInRecipe)
    (instanceId : Nat) (ingredients_data : List IngredientAmount) :
    (RecipeWriteSerializer.update table instanceId ingredients_data).filter
        (fun row => row.recipeId == instanceId)
      = create_ingredients ingredients_data instanceId ∧
    (RecipeWriteSerializer.update table instanceId ingredients_data).filter
        (fun row => row.recipeId != instanceId)
      = table.filter (fun row => row.recipeId != instanceId) := by
  have hold : ∀ t : List IngredientInRecipe,
      (t.filter (fun row => row.recipeId != instanceId)).filter
        (fun row => row.recipeId == instanceId) = [] := by
    intro t
    apply List.filter_eq_nil_iff.mpr
    intro a ha
    have h2 := (List.mem_filter.mp ha).2
    simp only [bne_iff_ne, ne_eq] at h2
    simp [h2]
  have hnew : (create_ingredients ingredients_data instanceId).filter
      (fun row => row.recipeId == instanceId)
        = create_ingredients ingredients_data instanceId := by
    apply List.filter_eq_self.mpr
    intro a ha
    rcases List.mem_map.mp ha with ⟨x, hx, rfl⟩
    simp
  have hidem : ∀ t : List IngredientInRecipe,
      (t.filter (fun row => row.recipeId != instanceId)).filter
        (fun row => row.recipeId != instanceId)
          = t.filter (fun row => row.recipeId != instanceId) := by
    intro t
    apply List.filter_eq_self.mpr
    intro a ha
    exact (List.mem_filter.mp ha).2
  have hnone : (create_ingredients ingredients_data instanceId).filter
      (fun row => row.recipeId != instanceId) = [] := by
    apply List.filter_eq_nil_iff.mpr
    intro a ha
    rcases List.mem_map.mp ha with ⟨x, hx, rfl⟩
    simp
  constructor
  · rw [RecipeWriteSerializer.update, List.filter_append, hold table, hnew,
      List.nil_append]
  · rw [RecipeWriteSerializer.update, List.filter_append, hidem table, hnone,
      List.append_nil]
